import Mathlib

/-!
Shallow embedding of the two YCSB helper scripts of this repository,
`bin/reporting.py` (log sample extractor) and `bin/workloadgenerator.py`
(workload configuration generator), together with theorems checking the
specification's claims against them.

Both scripts are Python 2.  Lines of a file are modelled as `String`s
(as yielded by `for line in open(f)`, i.e. possibly ending in a newline),
emitted samples as `Int × String` pairs (the two `%s` fields of the
`print` statements), and Python exceptions as explicit error values.
-/

deriving instance DecidableEq for Except

namespace YCSB

/-- Split a character list at the first occurrence of the (nonempty)
pattern `pat`, scanning left to right: returns the text strictly before
the first occurrence and the text strictly after it, or `none` when `pat`
does not occur.  This is the primitive underlying Python's `in`,
`str.split(sep)` and `str.split(sep)[1]` as used by the scripts. -/
def splitFirstL (pat : List Char) : List Char → Option (List Char × List Char)
  | [] => none
  | c :: rest =>
    if pat.isPrefixOf (c :: rest) then some ([], (c :: rest).drop pat.length)
    else
      match splitFirstL pat rest with
      | some (pre, post) => some (c :: pre, post)
      | none => none

/-- Python `pat in s` (for the nonempty literal patterns of the scripts). -/
def pyContains (s pat : String) : Bool :=
  (splitFirstL pat.data s.data).isSome

/-- Python `str.strip()`: drop leading and trailing whitespace. -/
def trimL (cs : List Char) : List Char :=
  ((cs.dropWhile Char.isWhitespace).reverse.dropWhile Char.isWhitespace).reverse

/-- Decimal digit-string value: `some n` iff the list is nonempty and all
decimal digits (the body of Python `int(...)` after sign/space handling). -/
def digitsVal : List Char → Option Nat
  | [] => none
  | ds =>
    if ds.all Char.isDigit then
      some (ds.foldl (fun a c => 10 * a + (c.toNat - 48)) 0)
    else none

/-- Python 2 `int(s)` on a string: optional surrounding whitespace,
optional sign, decimal digits; `none` models the `ValueError` raised
otherwise. -/
def pyIntL (cs : List Char) : Option Int :=
  match trimL cs with
  | '-' :: ds => (digitsVal ds).map (fun n => -(n : Int))
  | '+' :: ds => (digitsVal ds).map (fun n => (n : Int))
  | ds => (digitsVal ds).map (fun n => (n : Int))

namespace Reporting

/-- The exception `parse` can raise: Python raises `ValueError` both when
`line.split("sec:")` does not unpack into exactly two parts and when
`int(...)` fails (the spec calls this condition `ParseError`). -/
inductive ParseError
  | valueError
deriving DecidableEq, Repr

/-- The timestamp marker `"sec:"` that `parse` splits on. -/
def secMarker : List Char := "sec:".data

/-- The latency marker `"READ AverageLatency(us)="` that `parse` splits on. -/
def latencyMarker : List Char := "READ AverageLatency(us)=".data

/-- `parse(line)` from `bin/reporting.py`:
```
time,rest = line.split("sec:")
time = int(time.strip())
try:
  avg_latency = rest.split("READ AverageLatency(us)=")[1].replace("]", "")
except IndexError: #no ops
  avg_latency = -1
return (time, avg_latency)
```
`line.split("sec:")` unpacks into two names only when `"sec:"` occurs
exactly once (otherwise `ValueError`); index `[1]` of the latency split is
the text between the first occurrence of the marker and the next
occurrence (or the end of the line), and exists only when the marker
occurs (otherwise the caught `IndexError` yields the sentinel `-1`).
The dynamically-typed `avg_latency` (`str` or the int `-1`) is modelled as
a `String`, matching how `print '%s\t%s'` renders it. -/
def parse (line : String) : Except ParseError (Int × String) :=
  match splitFirstL secMarker line.data with
  | none => .error .valueError
  | some (timePart, rest) =>
    if (splitFirstL secMarker rest).isSome then .error .valueError
    else
      match pyIntL timePart with
      | none => .error .valueError
      | some time =>
        match splitFirstL latencyMarker rest with
        | none => .ok (time, "-1")
        | some (_, post) =>
          let seg :=
            match splitFirstL latencyMarker post with
            | some (mid, _) => mid
            | none => post
          .ok (time, String.mk (seg.filter (fun c => c ≠ ']')))

/-- `dummy_emitter(start, end)` from `bin/reporting.py`: prints
`(i, -1)` for every integer `i` in `xrange(start, end)` — note the step
is `1`, not the time delta. -/
def dummy_emitter (start fin : Int) : List (Int × String) :=
  (List.range (fin - start).toNat).map (fun k : Nat => (start + (k : Int), "-1"))

/-- The `for line in open(file_name)` loop of `main` in `bin/reporting.py`,
with the running `count` threaded explicitly and the printed rows
collected in order.  The second component is the uncaught exception, if
any, that aborted the loop (the rows already printed remain).
```
for line in open(file_name):
  count += delta_time
  if 'failed' in line:
    continue
  if 'current ops/sec' in line:
    time, avg_latency = parse(line)
    if time != count:
      dummy_emitter(count, time)
      count = time
    print '%s\t%s'%(time, avg_latency)
```
-/
def processLines (delta : Int) : Int → List String → List (Int × String) × Option ParseError
  | _, [] => ([], none)
  | count, line :: rest =>
    let count1 := count + delta
    if pyContains line "failed" then processLines delta count1 rest
    else if pyContains line "current ops/sec" then
      match parse line with
      | .error e => ([], some e)
      | .ok (time, avg_latency) =>
        if time ≠ count1 then
          let r := processLines delta time rest
          (dummy_emitter count1 time ++ (time, avg_latency) :: r.1, r.2)
        else
          let r := processLines delta count1 rest
          ((time, avg_latency) :: r.1, r.2)
    else processLines delta count1 rest

set_option linter.unusedVariables false in
/-- `main(file_name, delta_time)` from `bin/reporting.py`.  Its first
statement reassigns `delta_time = 10`, so the passed `delta_time` is
never used: the loop always runs with delta `10` and
`count = 0 - 10`. -/
def main (lines : List String) (delta_time : Int) : List (Int × String) × Option ParseError :=
  processLines 10 (0 - 10) lines

/-- Sample events `(time, latency)` as parsed from throughput lines, in
log order, with the chain condition that each timestamp is at least the
previous one plus the (fixed) delta of 10; starting the chain at the
initial counter `0 - 10` this makes the first timestamp nonnegative. -/
def alignedB : Int → List (Int × String) → Bool
  | _, [] => true
  | c, (t, _) :: evs => decide (c + 10 ≤ t) && alignedB t evs

/-- The rows the loop prints for a list of parsed sample events, starting
from counter `c`: for each event, the backfill block
`dummy_emitter (c + 10) t` followed by the sample row, the counter
continuing at `t` (when `t = c + 10` the block is empty and the counter
is unchanged, so this covers both branches of `if time != count`). -/
def emittedRows (delta : Int) : Int → List (Int × String) → List (Int × String)
  | _, [] => []
  | c, (t, lat) :: evs => dummy_emitter (c + delta) t ++ (t, lat) :: emittedRows delta t evs

/-- The timestamp of the last sample event, or `c` when there is none. -/
def lastTimeOf (c : Int) (evs : List (Int × String)) : Int :=
  evs.foldl (fun _ e => e.1) c

/-- First input line of the specification's worked example. -/
def exLine0 : String := "0 sec: ... current ops/sec ... READ AverageLatency(us)=120]"

/-- Second input line of the specification's worked example. -/
def exLine20 : String := "20 sec: ... current ops/sec ... READ AverageLatency(us)=130]"

/-- Modelled from claim C9's words, for comparison with `parse`: the
entire remaining text after the (first occurrence of the) latency
marker, with every `']'` character removed; `none` when the marker is
absent. -/
def claimedLatencyText (cs : List Char) : Option String :=
  (splitFirstL latencyMarker cs).map (fun p => String.mk (p.2.filter (fun c => c ≠ ']')))

end Reporting

namespace Generator

/-- A value of the dynamically-typed substitution context dict of
`bin/workloadgenerator.py`: integers, strings, or the float literals
`0.9`/`0.1` (no arithmetic is ever performed on them, so they are
modelled as exact rationals). -/
inductive PyVal
  | int (n : Int)
  | str (s : String)
  | num (q : ℚ)
deriving DecidableEq, Repr

/-- The errors `generate_configuration` can raise before writing files:
the `assert(record_count >= insert_count)` failure, and the
`ZeroDivisionError` of `record_count/insert_count`. -/
inductive GenErr
  | assertionError
  | zeroDivisionError
deriving DecidableEq, Repr

/-- Outcome of a `generate_configuration` run: the files written, in
order, as (name, contents) pairs, and the uncaught exception, if any. -/
structure GenResult where
  written : List (String × String)
  error : Option GenErr
deriving DecidableEq, Repr

/-- `num_config_files = int(math.ceil(record_count/insert_count))` from
`bin/workloadgenerator.py`.  The script is Python 2 and both operands are
`int`s, so `/` is floor division; `math.ceil` of the resulting integer is
that integer, and `int(...)` converts it back unchanged.  The whole
expression is therefore Python 2 floor division, `Int.fdiv`. -/
def num_config_files (record_count insert_count : Int) : Int :=
  Int.fdiv record_count insert_count

/-- The context dict built for partition `i` inside the loop of
`generate_configuration` (the loop variable `i` ranges over
`xrange(num_config_files)`, hence `i : Nat`). -/
def context (record_count operation_count insert_count : Int)
    (hosts thread_count : String) (i : Nat) : List (String × PyVal) :=
  [("recordcount", .int record_count),
   ("operationcount", .int operation_count),
   ("insertstart", .int (i * insert_count)),
   ("insertcount", .int insert_count),
   ("fieldlength", .int 200),
   ("fieldcount", .int 10),
   ("workload", .str "com.yahoo.ycsb.workloads.CoreWorkload"),
   ("readallfields", .str "true"),
   ("readproportion", .num 0.9),
   ("updateproportion", .num 0.1),
   ("scanproportion", .int 0),
   ("insertproportion", .int 0),
   ("requestdistribution", .str "uniform"),
   ("hosts", .str hosts),
   ("threadcount", .str thread_count),
   ("readconsistencylevel", .str "QUORUM"),
   ("writeconsistencylevel", .str "QUORUM")]

/-- `generate_configuration(options)` from `bin/workloadgenerator.py`,
after the `int(...)` conversions of the numeric options.  External
collaborators are parameters: `render` is `pystache.render`, and
`readTemplate` is the read of the template file (a thunk, so that a
result that does not depend on it witnesses that the failure happened
before the template was read).  The `raw_input` confirmation prompt
reads a line and continues regardless of its content, so it does not
affect the result.  Mirroring the source order: the `assert` runs first,
then the template is read, then `num_config_files` is computed (a
`ZeroDivisionError` when `insert_count` is zero), then one file per
`i in xrange(num_config_files)` is written. -/
def generate_configuration (render : String → List (String × PyVal) → String)
    (record_count operation_count insert_count : Int)
    (hosts thread_count : String)
    (readTemplate : Unit → String) (output_file : String) : GenResult :=
  if record_count ≥ insert_count then
    let template := readTemplate ()
    if insert_count = 0 then { written := [], error := some .zeroDivisionError }
    else
      let n := num_config_files record_count insert_count
      { written :=
          (List.range n.toNat).map (fun i =>
            (output_file ++ "_" ++ toString i,
             render template (context record_count operation_count insert_count hosts thread_count i))),
        error := none }
  else { written := [], error := some .assertionError }

end Generator

end YCSB

namespace YCSB

namespace Reporting

lemma dummy_emitter_eq_nil {start fin : Int} (h : fin ≤ start) : dummy_emitter start fin = [] := by
  unfold dummy_emitter
  rw [show (fin - start).toNat = 0 by omega]
  rfl

lemma dummy_emitter_length (start fin : Int) :
    (dummy_emitter start fin).length = (fin - start).toNat := by
  unfold dummy_emitter
  rw [List.length_map, List.length_range]

lemma processLines_cons (delta count : Int) (line : String) (rest : List String) :
    processLines delta count (line :: rest) =
      if pyContains line "failed" then processLines delta (count + delta) rest
      else if pyContains line "current ops/sec" then
        match parse line with
        | .error e => ([], some e)
        | .ok (time, avg_latency) =>
          if time ≠ count + delta then
            (dummy_emitter (count + delta) time ++
               (time, avg_latency) :: (processLines delta time rest).1,
             (processLines delta time rest).2)
          else
            ((time, avg_latency) :: (processLines delta (count + delta) rest).1,
             (processLines delta (count + delta) rest).2)
      else processLines delta (count + delta) rest := rfl

/-- When every input line is a well-formed throughput sample, the loop
emits exactly the `emittedRows` of the parsed events and raises nothing. -/
lemma processLines_samples (delta : Int) (ps : List (String × Int × String)) :
    ∀ c : Int,
      (∀ p ∈ ps, pyContains p.1 "failed" = false ∧
        pyContains p.1 "current ops/sec" = true ∧ parse p.1 = .ok p.2) →
      processLines delta c (ps.map (fun p => p.1)) =
        (emittedRows delta c (ps.map (fun p => p.2)), none) := by
  induction ps with
  | nil => intro c _; rfl
  | cons p ps ih =>
    intro c h
    obtain ⟨line, ev⟩ := p
    obtain ⟨t, lat⟩ := ev
    obtain ⟨h1, h2, h3⟩ := h (line, t, lat) (List.mem_cons_self _ _)
    have hrest := fun q hq => h q (List.mem_cons_of_mem _ hq)
    simp only [List.map_cons]
    rw [processLines_cons, h1, h2]
    simp only [Bool.false_eq_true, if_false, if_true, h3]
    by_cases ht : t = c + delta
    · subst ht
      simp only [ne_eq, not_true_eq_false, if_false, ite_false, not_true]
      rw [ih _ hrest]
      simp [emittedRows, dummy_emitter_eq_nil (le_refl _)]
    · rw [if_pos ht, ih _ hrest]
      simp [emittedRows]

/-- Row count of an aligned event list: telescoping the per-event block
lengths `(t - c - 10) + 1` gives `lastTime - c - 9 * n`. -/
lemma emittedRows_length (evs : List (Int × String)) :
    ∀ c : Int, alignedB c evs = true →
      ((emittedRows 10 c evs).length : Int) = lastTimeOf c evs - c - 9 * evs.length := by
  induction evs with
  | nil => intro c _; simp [emittedRows, lastTimeOf]
  | cons e evs ih =>
    intro c hal
    obtain ⟨t, lat⟩ := e
    simp only [alignedB, Bool.and_eq_true, decide_eq_true_eq] at hal
    obtain ⟨hle, hal'⟩ := hal
    have iht := ih t hal'
    have hlast : lastTimeOf c ((t, lat) :: evs) = lastTimeOf t evs := rfl
    simp only [emittedRows, List.length_append, List.length_cons, hlast,
      dummy_emitter_length, List.length_cons]
    push_cast
    omega

lemma mem_dummy_emitter_times {start fin x : Int}
    (hx : x ∈ (dummy_emitter start fin).map Prod.fst) : start ≤ x ∧ x < fin := by
  simp only [dummy_emitter, List.map_map, List.mem_map, Function.comp, List.mem_range] at hx
  obtain ⟨k, hk, rfl⟩ := hx
  constructor <;> omega

lemma dummy_emitter_times_pairwise (start fin : Int) :
    ((dummy_emitter start fin).map Prod.fst).Pairwise (· < ·) := by
  simp only [dummy_emitter, List.map_map]
  exact (List.pairwise_lt_range _).map _ (fun a b h => by simp [Function.comp]; omega)

/-- Every time emitted from an aligned event list is at least `c + 10`. -/
lemma emittedRows_time_lb (evs : List (Int × String)) :
    ∀ c : Int, alignedB c evs = true →
      ∀ x ∈ (emittedRows 10 c evs).map Prod.fst, c + 10 ≤ x := by
  induction evs with
  | nil => intro c _ x hx; simp [emittedRows] at hx
  | cons e evs ih =>
    intro c hal x hx
    obtain ⟨t, lat⟩ := e
    simp only [alignedB, Bool.and_eq_true, decide_eq_true_eq] at hal
    obtain ⟨hle, hal'⟩ := hal
    simp only [emittedRows, List.map_append, List.map_cons, List.mem_append,
      List.mem_cons] at hx
    rcases hx with hx | hx | hx
    · exact (mem_dummy_emitter_times hx).1
    · omega
    · have := ih t hal' x (by simpa using hx)
      omega

/-- Times emitted from an aligned event list are strictly increasing
(in particular pairwise distinct). -/
lemma emittedRows_times_pairwise (evs : List (Int × String)) :
    ∀ c : Int, alignedB c evs = true →
      ((emittedRows 10 c evs).map Prod.fst).Pairwise (· < ·) := by
  induction evs with
  | nil => intro c _; simp [emittedRows]
  | cons e evs ih =>
    intro c hal
    obtain ⟨t, lat⟩ := e
    simp only [alignedB, Bool.and_eq_true, decide_eq_true_eq] at hal
    obtain ⟨hle, hal'⟩ := hal
    simp only [emittedRows, List.map_append, List.map_cons]
    rw [List.pairwise_append]
    refine ⟨dummy_emitter_times_pairwise _ _, ?_, ?_⟩
    · rw [List.pairwise_cons]
      refine ⟨fun b hb => ?_, ih t hal'⟩
      have := emittedRows_time_lb evs t hal' b hb
      omega
    · intro a ha b hb
      have ha' := mem_dummy_emitter_times ha
      simp only [List.mem_cons] at hb
      rcases hb with rfl | hb
      · omega
      · have := emittedRows_time_lb evs t hal' b hb
        omega

/-- If `line` is a throughput line on which `parse` raises, the loop run
on `pre ++ line :: rest` stops at `line`: it keeps exactly the rows of
the clean prefix `pre` and propagates the error, whatever follows. -/
lemma processLines_abort (delta : Int) (line : String)
    (h1 : pyContains line "failed" = false)
    (h2 : pyContains line "current ops/sec" = true)
    (herr : parse line = .error .valueError)
    (pre : List String) :
    ∀ c : Int, (processLines delta c pre).2 = none →
      ∀ rest : List String,
        processLines delta c (pre ++ line :: rest) =
          ((processLines delta c pre).1, some .valueError) := by
  induction pre with
  | nil =>
    intro c _ rest
    simp only [List.nil_append]
    rw [processLines_cons, h1, h2]
    simp [herr, processLines]
  | cons a pre ih =>
    intro c hnone rest
    rw [processLines_cons] at hnone
    rw [List.cons_append, processLines_cons, processLines_cons]
    cases hf : pyContains a "failed" with
    | true =>
      simp only [hf, if_true] at hnone ⊢
      exact ih _ hnone rest
    | false =>
      simp only [hf, Bool.false_eq_true, if_false] at hnone ⊢
      cases ho : pyContains a "current ops/sec" with
      | false =>
        simp only [ho, Bool.false_eq_true, if_false] at hnone ⊢
        exact ih _ hnone rest
      | true =>
        simp only [ho, if_true] at hnone ⊢
        cases hp : parse a with
        | error e =>
          rw [hp] at hnone
        | ok tl =>
          obtain ⟨t, lat⟩ := tl
          rw [hp] at hnone
          dsimp only at hnone ⊢
          by_cases ht : t = c + delta
          · simp only [if_neg (fun hn : t ≠ c + delta => hn ht)] at hnone ⊢
            rw [ih _ hnone rest]
          · simp only [if_pos ht] at hnone ⊢
            rw [ih _ hnone rest]

end Reporting

open Reporting Generator

/-- Claim C1 (code evaluation at the failing input).  The claim says
`generate_configuration` computes `numPartitions = ceil(recordCount /
insertCountPerPartition)` and that `recordCount=100,
insertCountPerPartition=30` produces 4 partitions with `insertStart`
values 0, 30, 60, 90.  The code disagrees: Python 2 integer division
floors before `math.ceil` sees the value, so `(100, 30)` yields 3
partition files with `insertStart` values 0, 30, 60 only (rendered here
with a `render` stub that prints the bound `insertstart`). -/
theorem claim1_python2_floor_partitions :
    num_config_files 100 30 = 3 ∧
    (generate_configuration
        (fun _ ctx =>
          match ctx.lookup "insertstart" with
          | some (PyVal.int n) => toString n
          | _ => "")
        100 10000000 30 "queenbee" "100" (fun _ => "template text") "workload").written =
      [("workload_0", "0"), ("workload_1", "30"), ("workload_2", "60")] := by
  exact ⟨rfl, by decide⟩

/-- Claim C3: whenever `recordCount < insertCountPerPartition`, the run
fails with the assertion error, no output file is written, and the result
does not depend on the template thunk — the failure happens before the
template is even read. -/
theorem claim3_validation_before_output
    (render : String → List (String × PyVal) → String)
    (rc oc ic : Int) (hosts tc : String) (tpl1 tpl2 : Unit → String) (out : String)
    (h : rc < ic) :
    generate_configuration render rc oc ic hosts tc tpl1 out =
      { written := [], error := some .assertionError } ∧
    generate_configuration render rc oc ic hosts tc tpl1 out =
      generate_configuration render rc oc ic hosts tc tpl2 out := by
  have hlt : ¬ rc ≥ ic := by omega
  constructor <;> simp [generate_configuration, hlt]

/-- Claim C3 witness: the spec's particular instance `recordCount=10,
insertCountPerPartition=50` fails the assertion with nothing written,
with two different template thunks giving the same result. -/
theorem claim3_validation_before_output_witness :
    generate_configuration (fun t _ => t) 10 3 50 "queenbee" "100" (fun _ => "T1") "w" =
      { written := [], error := some .assertionError } ∧
    generate_configuration (fun t _ => t) 10 3 50 "queenbee" "100" (fun _ => "T1") "w" =
      generate_configuration (fun t _ => t) 10 3 50 "queenbee" "100" (fun _ => "T2") "w" :=
  claim3_validation_before_output (fun t _ => t) 10 3 50 "queenbee" "100"
    (fun _ => "T1") (fun _ => "T2") "w" (by decide)

/-- Claim C5: the LogSampleExtractor's `-d` flag is dead — `main` produces
the same output whatever delta is passed, and the computation always runs
with delta 10 (the first statement of `main` reassigns
`delta_time = 10`). -/
theorem claim5_delta_flag_ignored (lines : List String) (d1 d2 : Int) :
    main lines d1 = main lines d2 ∧
    main lines d1 = processLines 10 (0 - 10) lines :=
  ⟨rfl, rfl⟩

/-- Claim C7: a line containing the failure marker `'failed'` emits
nothing, but the time counter has already been advanced by delta before
the skip, so the line still consumes one time slot: processing it is
exactly processing the remaining lines from counter `count + delta`. -/
theorem claim7_failed_line_consumes_slot (delta count : Int) (line : String)
    (rest : List String) (h : pyContains line "failed" = true) :
    processLines delta count (line :: rest) = processLines delta (count + delta) rest := by
  rw [processLines_cons, h]
  simp

/-- Claim C7 witness: a concrete failure-marked line at counter 0 is
skipped with the counter advanced to 10, and nothing is emitted. -/
theorem claim7_failed_line_consumes_slot_witness :
    processLines 10 0 ["5 sec: 3 operations failed"] = processLines 10 10 [] ∧
    processLines 10 0 ["5 sec: 3 operations failed"] = ([], none) :=
  ⟨claim7_failed_line_consumes_slot 10 0 "5 sec: 3 operations failed" [] (by decide),
   by decide⟩

/-- Claim C6: a throughput-report line whose remainder after `"sec:"`
contains no `"READ AverageLatency(us)="` field parses to the sentinel
latency `-1` without raising, and the loop emits the sample `(t, -1)`
normally. -/
theorem claim6_missing_latency_sentinel (line : String) (timePart rest : List Char) (t : Int)
    (hsplit : splitFirstL secMarker line.data = some (timePart, rest))
    (honce : splitFirstL secMarker rest = none)
    (hint : pyIntL timePart = some t)
    (hnolat : splitFirstL latencyMarker rest = none) :
    parse line = .ok (t, "-1") ∧
    ∀ (c : Int) (tail : List String),
      pyContains line "failed" = false → pyContains line "current ops/sec" = true →
      (t, "-1") ∈ (processLines 10 c (line :: tail)).1 := by
  have hp : parse line = .ok (t, "-1") := by
    simp [parse, hsplit, honce, hint, hnolat]
  refine ⟨hp, ?_⟩
  intro c tail hf ho
  rw [processLines_cons]
  simp only [hf, Bool.false_eq_true, if_false, ho, if_true, hp]
  by_cases ht : t = c + 10
  · simp only [if_neg (fun hn : t ≠ c + 10 => hn ht)]
    exact List.mem_cons_self _ _
  · simp only [if_pos ht]
    exact List.mem_append_right _ (List.mem_cons_self _ _)

/-- Claim C6 witness: a throughput line reporting no read operations
yields the sentinel row `(30, -1)`, which the loop emits. -/
theorem claim6_missing_latency_sentinel_witness :
    parse "30 sec: 0 operations; 0 current ops/sec" = .ok (30, "-1") ∧
    ((30 : Int), "-1") ∈ (processLines 10 20 ["30 sec: 0 operations; 0 current ops/sec"]).1 := by
  have h := claim6_missing_latency_sentinel "30 sec: 0 operations; 0 current ops/sec"
    "30 ".data " 0 operations; 0 current ops/sec".data 30
    (by decide) (by decide) (by decide) (by decide)
  exact ⟨h.1, h.2 20 [] (by decide) (by decide)⟩

/-- Claim C9 counterexample: on a throughput line in which the latency
marker occurs twice, `parse` emits only the text between the first and
second occurrences (with `']'` removed), not the entire remaining text of
the line after the marker as the claim states. -/
theorem claim9_counterexample :
    parse "0 sec: 1 current ops/sec [READ AverageLatency(us)=5] READ AverageLatency(us)=7]\n" =
      .ok (0, "5 ") ∧
    claimedLatencyText
        "0 sec: 1 current ops/sec [READ AverageLatency(us)=5] READ AverageLatency(us)=7]\n".data =
      some "5 READ AverageLatency(us)=7\n" ∧
    ("5 " : String) ≠ "5 READ AverageLatency(us)=7\n" :=
  ⟨by decide, by decide, by decide⟩

/-- Claim C9 (amended): on a throughput-report line whose remainder
contains exactly one occurrence of the latency marker, the emitted
latency is not a parsed number but the entire remaining text after the
marker with every `']'` removed — including trailing fields and the
line's newline character — i.e. `parse` agrees with the claim's
description `claimedLatencyText`. -/
theorem claim9_latency_is_raw_text (line : String) (timePart rest pre post : List Char)
    (t : Int)
    (hsplit : splitFirstL secMarker line.data = some (timePart, rest))
    (honce : splitFirstL secMarker rest = none)
    (hint : pyIntL timePart = some t)
    (hlat : splitFirstL latencyMarker rest = some (pre, post))
    (honcelat : splitFirstL latencyMarker post = none) :
    parse line = .ok (t, String.mk (post.filter (fun c => c ≠ ']'))) ∧
    claimedLatencyText rest = some (String.mk (post.filter (fun c => c ≠ ']'))) := by
  constructor
  · simp [parse, hsplit, honce, hint, hlat, honcelat]
  · simp [claimedLatencyText, hlat]

/-- Claim C9 witness: on a newline-terminated line with a single latency
marker the emitted latency is the raw text `"130\n"` — trailing newline
included, `']'` stripped — matching the claim's description. -/
theorem claim9_latency_is_raw_text_witness :
    parse "20 sec: 13 current ops/sec; [READ AverageLatency(us)=130]\n" = .ok (20, "130\n") ∧
    claimedLatencyText " 13 current ops/sec; [READ AverageLatency(us)=130]\n".data =
      some "130\n" :=
  claim9_latency_is_raw_text "20 sec: 13 current ops/sec; [READ AverageLatency(us)=130]\n"
    "20 ".data " 13 current ops/sec; [READ AverageLatency(us)=130]\n".data
    " 13 current ops/sec; [".data "130]\n".data 20
    (by decide) (by decide) (by decide) (by decide) (by decide)

/-- Claim C10: when a throughput line's parsed timestamp is strictly less
than the advanced counter `c + 10`, the backfill block is empty and the
loop continues with the counter reset backwards to the parsed timestamp;
consequently emitted times need not increase — on two samples both at
time 0 the extractor emits time 0 twice. -/
theorem claim10_backward_timestamp_reset (c t : Int) (lat : String) (line : String)
    (tail : List String)
    (h1 : pyContains line "failed" = false)
    (h2 : pyContains line "current ops/sec" = true)
    (h3 : parse line = .ok (t, lat))
    (h4 : t < c + 10) :
    dummy_emitter (c + 10) t = [] ∧
    processLines 10 c (line :: tail) =
      ((t, lat) :: (processLines 10 t tail).1, (processLines 10 t tail).2) ∧
    (main ["0 sec: a current ops/sec [READ AverageLatency(us)=1]",
           "0 sec: b current ops/sec [READ AverageLatency(us)=2]"] 10).1.map Prod.fst =
      [0, 0] := by
  have hempty : dummy_emitter (c + 10) t = [] := dummy_emitter_eq_nil (by omega)
  have ht : t ≠ c + 10 := by omega
  refine ⟨hempty, ?_, by decide⟩
  rw [processLines_cons]
  simp [h1, h2, h3, ht, hempty]

/-- Claim C8: for every partition index `i` below the partition count,
the `i`-th written file is named `output_i` and its contents are the
render of the template under a context binding exactly the claimed
parameters: the record and operation counts, `insertstart = i *
insertCountPerPartition`, `insertcount = insertCountPerPartition`, and
the fixed defaults (field length 200, field count 10, the workload
identifier, read-all-fields true, read proportion 0.9, update proportion
0.1, scan and insert proportions 0, uniform request distribution, the
supplied hosts, the thread count, and QUORUM consistency for read and
write). -/
theorem claim8_context_binds_exactly
    (render : String → List (String × PyVal) → String)
    (rc oc ic : Int) (hosts tc : String) (tpl : Unit → String) (out : String) (i : Nat)
    (hge : rc ≥ ic) (hnz : ic ≠ 0) (hi : i < (num_config_files rc ic).toNat) :
    (generate_configuration render rc oc ic hosts tc tpl out).written[i]? =
      some (out ++ "_" ++ toString i,
        render (tpl ())
          [("recordcount", PyVal.int rc),
           ("operationcount", PyVal.int oc),
           ("insertstart", PyVal.int (i * ic)),
           ("insertcount", PyVal.int ic),
           ("fieldlength", PyVal.int 200),
           ("fieldcount", PyVal.int 10),
           ("workload", PyVal.str "com.yahoo.ycsb.workloads.CoreWorkload"),
           ("readallfields", PyVal.str "true"),
           ("readproportion", PyVal.num 0.9),
           ("updateproportion", PyVal.num 0.1),
           ("scanproportion", PyVal.int 0),
           ("insertproportion", PyVal.int 0),
           ("requestdistribution", PyVal.str "uniform"),
           ("hosts", PyVal.str hosts),
           ("threadcount", PyVal.str tc),
           ("readconsistencylevel", PyVal.str "QUORUM"),
           ("writeconsistencylevel", PyVal.str "QUORUM")]) := by
  unfold generate_configuration
  rw [if_pos hge, if_neg hnz]
  simp only [List.getElem?_map, List.getElem?_range hi, Option.map_some']
  rfl

/-- Claim C8 witness: with `recordCount=100, insertCountPerPartition=30`
and a render stub returning the template, partition 2 is the file
`workload_2` with the rendered contents. -/
theorem claim8_context_binds_exactly_witness :
    (generate_configuration (fun t _ => t) 100 7 30 "h1,h2" "64"
        (fun _ => "TPL") "workload").written[2]? = some ("workload_2", "TPL") :=
  claim8_context_binds_exactly (fun t _ => t) 100 7 30 "h1,h2" "64"
    (fun _ => "TPL") "workload" 2 (by decide) (by decide) (by decide)

/-- Claim C4: a throughput-report line (it contains `'current ops/sec'`)
that lacks the `"sec:"` marker makes `parse` raise the parsing error, and
the whole run aborts at the first such line: the output is exactly the
clean prefix's rows, whatever lines follow — no retry, no further
output. -/
theorem claim4_malformed_line_aborts (pre rest : List String) (line : String) (d : Int)
    (h1 : pyContains line "failed" = false)
    (h2 : pyContains line "current ops/sec" = true)
    (h3 : pyContains line "sec:" = false)
    (h4 : (processLines 10 (0 - 10) pre).2 = none) :
    parse line = .error .valueError ∧
    main (pre ++ line :: rest) d = ((processLines 10 (0 - 10) pre).1, some .valueError) := by
  have hnone : splitFirstL secMarker line.data = none := by
    unfold pyContains at h3
    cases hs : splitFirstL "sec:".data line.data with
    | none => exact hs
    | some v => rw [hs] at h3; simp at h3
  have herr : parse line = .error .valueError := by
    unfold parse
    rw [hnone]
  exact ⟨herr, processLines_abort 10 line h1 h2 herr pre (0 - 10) h4 rest⟩

/-- Claim C4 witness: after one good sample line, a line containing the
throughput marker but no `"sec:"` marker aborts the run with the parsing
error, the lines behind it never contributing any output. -/
theorem claim4_malformed_line_aborts_witness :
    parse "mid-run stats update, current ops/sec pending" = .error .valueError ∧
    main (["0 sec: 1 current ops/sec [READ AverageLatency(us)=7]"] ++
        "mid-run stats update, current ops/sec pending" ::
          ["20 sec: 2 current ops/sec [READ AverageLatency(us)=9]"]) 3 =
      ((processLines 10 (0 - 10)
          ["0 sec: 1 current ops/sec [READ AverageLatency(us)=7]"]).1,
       some .valueError) :=
  claim4_malformed_line_aborts
    ["0 sec: 1 current ops/sec [READ AverageLatency(us)=7]"]
    ["20 sec: 2 current ops/sec [READ AverageLatency(us)=9]"]
    "mid-run stats update, current ops/sec pending" 3
    (by decide) (by decide) (by decide) (by decide)

/-- Claim C2 counterexample: on the specification's two-line example
(samples at times 0 and 20, delta 10) the extractor emits 12 rows, not
the 3 rows `(0,120), (10,-1), (20,130)` the claim states: the backfill
steps by one second, not by delta. -/
theorem claim2_counterexample :
    (main [exLine0, exLine20] 10).1.length = 12 ∧
    (main [exLine0, exLine20] 10).1 ≠ [(0, "120"), (10, "-1"), (20, "130")] :=
  ⟨by decide, by decide⟩

/-- Claim C2 (amended): for a log of well-formed throughput lines whose
timestamps start at the counter origin and increase by at least delta
(= 10) per line, the run raises nothing, emits exactly
`lastTime + 10 - 9 * n` rows (`n` the number of sample lines) — one row
per sample plus one sentinel row per integer second skipped in each gap —
and the emitted times are strictly increasing (no duplicates).  In
particular the two-line example with samples at 0 and 20 yields the 12
rows `(0,120), (10,-1), (11,-1), …, (19,-1), (20,130)`. -/
theorem claim2_backfill_steps_by_one (ps : List (String × Int × String)) (d : Int)
    (hwf : ∀ p ∈ ps, pyContains p.1 "failed" = false ∧
      pyContains p.1 "current ops/sec" = true ∧ parse p.1 = .ok p.2)
    (hal : alignedB (0 - 10) (ps.map (fun p => p.2)) = true) :
    (main (ps.map (fun p => p.1)) d).2 = none ∧
    (((main (ps.map (fun p => p.1)) d).1).length : Int) =
      lastTimeOf (0 - 10) (ps.map (fun p => p.2)) + 10 - 9 * ps.length ∧
    ((main (ps.map (fun p => p.1)) d).1.map Prod.fst).Pairwise (· < ·) ∧
    main [exLine0, exLine20] 10 =
      ([(0, "120"), (10, "-1"), (11, "-1"), (12, "-1"), (13, "-1"), (14, "-1"),
        (15, "-1"), (16, "-1"), (17, "-1"), (18, "-1"), (19, "-1"), (20, "130")],
       none) := by
  have hrun : main (ps.map (fun p => p.1)) d =
      (emittedRows 10 (0 - 10) (ps.map (fun p => p.2)), none) :=
    processLines_samples 10 ps (0 - 10) hwf
  have hlen := emittedRows_length (ps.map (fun p => p.2)) (0 - 10) hal
  rw [List.length_map] at hlen
  refine ⟨by rw [hrun], ?_, ?_, by decide⟩
  · rw [hrun]
    dsimp only
    omega
  · rw [hrun]
    exact emittedRows_times_pairwise _ _ hal

/-- Claim C2 witness: the amended statement instantiated on the two-line
example itself — no error, 12 rows, strictly increasing times, and the
exact row list. -/
theorem claim2_backfill_steps_by_one_witness :
    (main [exLine0, exLine20] 10).2 = none ∧
    (((main [exLine0, exLine20] 10).1).length : Int) = 20 + 10 - 9 * 2 ∧
    ((main [exLine0, exLine20] 10).1.map Prod.fst).Pairwise (· < ·) ∧
    main [exLine0, exLine20] 10 =
      ([(0, "120"), (10, "-1"), (11, "-1"), (12, "-1"), (13, "-1"), (14, "-1"),
        (15, "-1"), (16, "-1"), (17, "-1"), (18, "-1"), (19, "-1"), (20, "130")],
       none) := by
  have h := claim2_backfill_steps_by_one
    [(exLine0, 0, "120"), (exLine20, 20, "130")] 10 (by decide) (by decide)
  exact h

/-- Claim C10 witness: a sample at time 0 arriving when the counter
expects 10 produces an empty backfill and resets the counter back to 0;
the two-samples-at-time-0 log emits time 0 twice. -/
theorem claim10_backward_timestamp_reset_witness :
    dummy_emitter (0 + 10) 0 = [] ∧
    processLines 10 0 ["0 sec: b current ops/sec [READ AverageLatency(us)=2]"] =
      ((0, "2") :: (processLines 10 0 []).1, (processLines 10 0 []).2) ∧
    (main ["0 sec: a current ops/sec [READ AverageLatency(us)=1]",
           "0 sec: b current ops/sec [READ AverageLatency(us)=2]"] 10).1.map Prod.fst =
      [0, 0] :=
  claim10_backward_timestamp_reset 0 0 "2"
    "0 sec: b current ops/sec [READ AverageLatency(us)=2]" []
    (by decide) (by decide) (by decide) (by decide)

end YCSB
